import Mathlib

/-!
Shallow embedding of the flow-reconstruction-and-verification engine of
`comprehensive_audit.py` (the CIC-Flow-Meter-DNS repository), together with
proofs of the specification's claims about it.

The embedding follows the script line by line:
  * `Packet` is one row of the tshark packet table (fields extracted on
    lines 41-54 of the script); pandas `NaN` entries are modelled as `none`,
    and a pandas comparison of `NaN` against a number is `False`, which the
    `Option` equality `(· == some p)` reproduces.
  * `mask_fwd` / `mask_bwd` are the vectorized direction masks of lines
    92-98, `flow_pkts` the selection `df_packets[mask_fwd | mask_bwd]` of
    line 100.
  * `statsOfMatched` is the statistics block of lines 106-151; Python
    floats are modelled as exact rationals `ℚ`.
  * `check` is the per-field comparison closure of lines 158-174, and its
    result the verdict cell of the report table (`pass` prints `PASS`,
    `fail d` prints `DIFF (d)`, `passString` prints `PASS (String)`).
  * `reconstruct` / `auditFlow` / `auditBatch` model the per-flow loop of
    lines 81-187: an empty match set yields the `ERROR: No packets found`
    section (`noGroundTruth`) and the loop `continue`s with the next flow.
-/

namespace CICAudit

/-- Transport protocol of a sampled CSV flow row: line 35 of the script maps
the `Protocol` column to `tcp` when it equals `"TCP"` and to `udp`
otherwise. -/
inductive Proto where
  | udp
  | tcp
deriving DecidableEq

/-- One row of the tshark packet table (lines 41-54 of the script). The four
port columns are `NaN` (here `none`) when the packet does not carry that
transport layer. `dns_flags_response` models the `dns.flags.response`
column: `none` when the packet is not DNS (line 128 uses `notna()` for
`is_dns`), `some false` when its string form is a query flag (line 131),
`some true` when it is a response flag (line 132). `frame_len` and
`frame_time_epoch` are modelled as exact rationals. -/
structure Packet where
  frame_time_epoch : ℚ
  frame_len : ℚ
  ip_src : String
  ip_dst : String
  udp_srcport : Option ℕ
  udp_dstport : Option ℕ
  tcp_srcport : Option ℕ
  tcp_dstport : Option ℕ
  dns_flags_response : Option Bool
deriving DecidableEq

/-- A flow key: the 5-tuple `(Src IP, Dst IP, Src Port, Dst Port, Protocol)`
of one sampled CSV row (lines 83-87 of the script). -/
structure FlowKey where
  src : String
  dst : String
  sport : ℕ
  dport : ℕ
  proto : Proto
deriving DecidableEq

/-- The disjunctive port comparison used inside both masks:
`(df_packets[udp.xport] == p) | (df_packets[tcp.xport] == p)`. A missing
port column value (`NaN`, here `none`) compares unequal to every number. -/
def portEq (u t : Option ℕ) (p : ℕ) : Bool :=
  (u == some p) || (t == some p)

/-- `mask_fwd` (lines 92-94): source address, destination address, and the
two disjunctive port comparisons against the key's `sport`/`dport`. -/
def mask_fwd (k : FlowKey) (p : Packet) : Bool :=
  (p.ip_src == k.src) && (p.ip_dst == k.dst) &&
    portEq p.udp_srcport p.tcp_srcport k.sport &&
    portEq p.udp_dstport p.tcp_dstport k.dport

/-- `mask_bwd` (lines 96-98): the same comparisons with source and
destination swapped on both address and port. -/
def mask_bwd (k : FlowKey) (p : Packet) : Bool :=
  (p.ip_src == k.dst) && (p.ip_dst == k.src) &&
    portEq p.udp_srcport p.tcp_srcport k.dport &&
    portEq p.udp_dstport p.tcp_dstport k.sport

/-- `flow_pkts = df_packets[mask_fwd | mask_bwd]` (line 100). -/
def flow_pkts (pkts : List Packet) (k : FlowKey) : List Packet :=
  pkts.filter fun p => mask_fwd k p || mask_bwd k p

/-- Largest `frame.time_epoch` of a packet list, `0` on the empty list.
Line 108 sorts the timestamps ascending and line 109 takes `times[-1]`,
which is this maximum. -/
def maxTime : List Packet → ℚ
  | [] => 0
  | p :: rest => rest.foldl (fun m q => max m q.frame_time_epoch) p.frame_time_epoch

/-- Smallest `frame.time_epoch` of a packet list, `0` on the empty list.
Line 109 takes `times[0]` of the ascending sort, which is this minimum. -/
def minTime : List Packet → ℚ
  | [] => 0
  | p :: rest => rest.foldl (fun m q => min m q.frame_time_epoch) p.frame_time_epoch

/-- Largest `frame.len` of a packet list (`np.max(lengths)`, line 123),
`0` on the empty list. -/
def maxLen : List Packet → ℚ
  | [] => 0
  | p :: rest => rest.foldl (fun m q => max m q.frame_len) p.frame_len

/-- The QPS guard of lines 138-141: when queries exist but the duration is
zero the divisor is the fixed epsilon `0.000001`; otherwise divide by the
duration when it is positive and report `0` when it is not. -/
def qpsOf (tot_q : ℕ) (duration_sec : ℚ) : ℚ :=
  if 0 < tot_q ∧ duration_sec = 0 then (tot_q : ℚ) / (1 / 1000000)
  else if 0 < duration_sec then (tot_q : ℚ) / duration_sec else 0

/-- Line 151: `ratio = tot_q / tot_r if tot_r > 0 else tot_q`. -/
def ratioOf (tot_q tot_r : ℕ) : ℚ :=
  if 0 < tot_r then (tot_q : ℚ) / (tot_r : ℚ) else (tot_q : ℚ)

/-- The recomputed ground-truth statistics of one flow (lines 106-151).
`len_var` is the population variance of the frame lengths; line 122's
`np.std` is its square root (kept as the variance so that every field of
the structure is an exact rational). -/
structure FlowStatistics where
  duration_sec : ℚ
  tot_fwd : ℕ
  tot_bwd : ℕ
  len_mean : ℚ
  len_var : ℚ
  len_max : ℚ
  tot_q : ℕ
  tot_r : ℕ
  qps : ℚ
  avg_q : ℚ
  avg_r : ℚ
  amp_factor : ℚ
  ratio : ℚ
deriving DecidableEq

/-- The statistics block of lines 106-151, as a function of the matched
packet list `fp` (= `flow_pkts`) and the flow key. Every quantity of the
block reads only `fp` (the directional splits of lines 113-114 re-apply the
masks to `fp`, exactly as `flow_pkts[mask_fwd]` does).  Queries and
responses (lines 128-135) are the DNS packets of `fp` whose response flag
is `0` resp. `1`, regardless of direction. -/
def statsOfMatched (k : FlowKey) (fp : List Packet) : FlowStatistics :=
  let duration_sec := maxTime fp - minTime fp
  let fwd_pkts := fp.filter (mask_fwd k)
  let bwd_pkts := fp.filter (mask_bwd k)
  let lengths := fp.map (·.frame_len)
  let len_mean := lengths.sum / (lengths.length : ℚ)
  let len_var := (lengths.map (fun x => (x - len_mean) ^ 2)).sum / (lengths.length : ℚ)
  let dns_pkts := fp.filter (fun p => p.dns_flags_response.isSome)
  let q_pkts := dns_pkts.filter (fun p => p.dns_flags_response == some false)
  let r_pkts := dns_pkts.filter (fun p => p.dns_flags_response == some true)
  let tot_q := q_pkts.length
  let tot_r := r_pkts.length
  let q_bytes := (q_pkts.map (·.frame_len)).sum
  let r_bytes := (r_pkts.map (·.frame_len)).sum
  let avg_q := if 0 < tot_q then q_bytes / (tot_q : ℚ) else 0
  let avg_r := if 0 < tot_r then r_bytes / (tot_r : ℚ) else 0
  { duration_sec := duration_sec
    tot_fwd := fwd_pkts.length
    tot_bwd := bwd_pkts.length
    len_mean := len_mean
    len_var := len_var
    len_max := maxLen fp
    tot_q := tot_q
    tot_r := tot_r
    qps := qpsOf tot_q duration_sec
    avg_q := avg_q
    avg_r := avg_r
    amp_factor := if 0 < avg_q then avg_r / avg_q else 0
    ratio := ratioOf tot_q tot_r }

/-- The full statistics block applied to the matched packets of the flow. -/
def flowStats (pkts : List Packet) (k : FlowKey) : FlowStatistics :=
  statsOfMatched k (flow_pkts pkts k)

/-- Lines 100-104: when no packet matched the key in either direction the
script emits the `ERROR: No packets found` section and `continue`s; this is
the `EmptyFlow` signal, modelled as `none`. Otherwise the statistics block
runs on the matched packets. -/
def reconstruct (pkts : List Packet) (k : FlowKey) : Option FlowStatistics :=
  if (flow_pkts pkts k).length = 0 then none else some (flowStats pkts k)

/-- The per-flow outcome of one iteration of the loop of lines 81-187:
either the distinct `no ground truth` section (line 103) or the recomputed
statistics that feed the comparison table. -/
inductive FlowReport where
  | noGroundTruth
  | stats (s : FlowStatistics)

/-- One iteration of the audit loop for one sampled flow key. -/
def auditFlow (pkts : List Packet) (k : FlowKey) : FlowReport :=
  match reconstruct pkts k with
  | none => FlowReport.noGroundTruth
  | some s => FlowReport.stats s

/-- The batch audit: the loop of lines 81-187 over all sampled flow keys,
one report section per key. -/
def auditBatch (pkts : List Packet) (keys : List FlowKey) : List FlowReport :=
  keys.map (auditFlow pkts)

/-- Whether `sub` begins the character list `s` (an auxiliary for the Python
substring test). -/
def charsStart : List Char → List Char → Bool
  | [], _ => true
  | _ :: _, [] => false
  | c :: cs, d :: ds => c == d && charsStart cs ds

/-- Whether `sub` occurs contiguously inside the character list. -/
def charsHas (sub : List Char) : List Char → Bool
  | [] => sub.isEmpty
  | c :: rest => charsStart sub (c :: rest) || charsHas sub rest

/-- The Python substring test `sub in s` used by the special cases of lines
165-168. -/
def strHas (s sub : String) : Bool :=
  charsHas sub.data s.data

/-- A claimed or recomputed field value, classified by the outcome of
Python `float()` coercion: `num` carries a successfully coerced number,
`text` a value whose coercion raises (the `except` path of line 173). -/
inductive FieldVal where
  | num (q : ℚ)
  | text (s : String)

/-- The numeric coercion `float(v)` of lines 160-161, as an `Option`. -/
def toFloat (v : FieldVal) : Option ℚ :=
  match v with
  | FieldVal.num q => some q
  | FieldVal.text _ => none

/-- Verdict cell of one comparison row: `pass` prints `PASS`, `fail d`
prints `DIFF (d)` with the absolute difference, `passString` prints
`PASS (String)` (the lenient fallback of line 174). -/
inductive Verdict where
  | pass
  | fail (diff : ℚ)
  | passString
deriving DecidableEq

/-- The `check` closure of lines 158-174.  Both values are coerced with
`float()`; if either coercion fails the bare `except` of line 173 returns
the lenient `PASS (String)` row.  Otherwise the base verdict is `PASS` iff
the absolute difference is at most `tol` (line 163), after which the three
name-based special cases of lines 165-168 may upgrade the verdict to `PASS`
(they never downgrade it): a name containing `"Duration"` with difference
under `1000`, a name containing `"Mean"` with difference under `1.0`, a
name containing `"Std"` with difference under `2.0`.  (Line 169's
`if ... : pass` block is a Python no-op and is omitted.) -/
def check (name : String) (tool_val truth_val : FieldVal) (tol : ℚ) : Verdict :=
  match toFloat tool_val, toFloat truth_val with
  | some val_t, some val_r =>
    let diff := |val_t - val_r|
    let status0 : Verdict := if diff ≤ tol then Verdict.pass else Verdict.fail diff
    let status1 : Verdict :=
      if strHas name "Duration" = true ∧ diff < 1000 then Verdict.pass else status0
    let status2 : Verdict :=
      if strHas name "Mean" = true ∧ diff < 1 then Verdict.pass else status1
    if strHas name "Std" = true ∧ diff < 2 then Verdict.pass else status2
  | _, _ => Verdict.passString

/-- The reversed flow key: source and destination swapped on both address
and port, transport protocol unchanged. -/
def revKey (k : FlowKey) : FlowKey :=
  { src := k.dst, dst := k.src, sport := k.dport, dport := k.sport, proto := k.proto }

/-! ## Helper lemmas -/

/-- Splitting the length of a filtered list along two disjoint boolean
predicates: when no element satisfies both, the elements satisfying the
disjunction are exactly partitioned between the two. -/
theorem length_filter_or_split {α : Type} (f g : α → Bool)
    (hdisj : ∀ a, ¬(f a = true ∧ g a = true)) (l : List α) :
    ((l.filter fun a => f a || g a).filter f).length
      + ((l.filter fun a => f a || g a).filter g).length
      = (l.filter fun a => f a || g a).length := by
  induction l with
  | nil => rfl
  | cons a l ih =>
    by_cases hf : f a = true <;> by_cases hg : g a = true
    · exact absurd ⟨hf, hg⟩ (hdisj a)
    · simp [List.filter_cons, hf, hg, -List.filter_filter]; omega
    · simp [List.filter_cons, hf, hg, -List.filter_filter]; omega
    · simp [List.filter_cons, hf, hg, -List.filter_filter]; omega

/-! ## Claims about the field verifier (`check`) -/

/-- Closed form of the numeric branch of `check`: the three name-based
upgrades of lines 165-168 only ever turn the base verdict into `PASS`, so
the result is `PASS` exactly when one of the four conditions holds and the
diagnostic `DIFF` row otherwise. -/
theorem check_num_eq_ite (name : String) (t r tol : ℚ) :
    check name (FieldVal.num t) (FieldVal.num r) tol =
      if |t - r| ≤ tol ∨ (strHas name "Duration" = true ∧ |t - r| < 1000)
          ∨ (strHas name "Mean" = true ∧ |t - r| < 1)
          ∨ (strHas name "Std" = true ∧ |t - r| < 2)
        then Verdict.pass else Verdict.fail |t - r| := by
  simp only [check, toFloat]
  by_cases hT : |t - r| ≤ tol <;>
    by_cases hD : strHas name "Duration" = true ∧ |t - r| < 1000 <;>
    by_cases hM : strHas name "Mean" = true ∧ |t - r| < 1 <;>
    by_cases hS : strHas name "Std" = true ∧ |t - r| < 2 <;>
    simp [hT, hD, hM, hS]

/-- Claim C3: a numeric field comparison passes iff the absolute difference
is within the tolerance effective for the field name — the nominal `tol`,
widened by the three name-based special cases (`Duration` under `1000`,
`Mean` under `1.0`, `Std` under `2.0`) — and fails with the observed
difference otherwise.  In particular the field `Flow Duration` with nominal
tolerance `5.0` passes at difference `999` and fails at difference
`1001`. -/
theorem check_verdict_iff_effective_tolerance (name : String) (t r tol : ℚ) :
    (check name (FieldVal.num t) (FieldVal.num r) tol =
      if |t - r| ≤ tol ∨ (strHas name "Duration" = true ∧ |t - r| < 1000)
          ∨ (strHas name "Mean" = true ∧ |t - r| < 1)
          ∨ (strHas name "Std" = true ∧ |t - r| < 2)
        then Verdict.pass else Verdict.fail |t - r|)
    ∧ check "Flow Duration" (FieldVal.num 1000) (FieldVal.num 1999) 5 = Verdict.pass
    ∧ check "Flow Duration" (FieldVal.num 1000) (FieldVal.num 2001) 5
        = Verdict.fail 1001 := by
  have hd : strHas "Flow Duration" "Duration" = true := by decide
  have hm : strHas "Flow Duration" "Mean" = false := by decide
  have hs : strHas "Flow Duration" "Std" = false := by decide
  refine ⟨check_num_eq_ite name t r tol, ?_, ?_⟩
  · rw [check_num_eq_ite, if_pos]
    exact Or.inr (Or.inl ⟨hd, by norm_num⟩)
  · have habs : |(1000 : ℚ) - 2001| = 1001 := by norm_num
    rw [check_num_eq_ite, habs, if_neg]
    rintro (h | ⟨-, h⟩ | ⟨hm1, -⟩ | ⟨hs1, -⟩)
    · norm_num at h
    · norm_num at h
    · rw [hm] at hm1; exact Bool.false_ne_true hm1
    · rw [hs] at hs1; exact Bool.false_ne_true hs1

/-- Claim C4: when either side of a field comparison fails numeric
coercion, the bare `except` path reports the lenient string-level
`PASS (String)` verdict, whatever the values are; `check` is a total
function, so no exception escapes a field comparison. -/
theorem check_non_numeric_always_passes (name : String) (v w : FieldVal) (tol : ℚ)
    (h : toFloat v = none ∨ toFloat w = none) :
    check name v w tol = Verdict.passString := by
  cases v <;> cases w <;> simp_all [check, toFloat]

/-- Concrete instance of `check_non_numeric_always_passes`: a claimed value
that cannot be coerced to a number passes at the string level against a
numeric ground-truth value. -/
theorem check_non_numeric_always_passes_witness :
    toFloat (FieldVal.text "not a number") = none ∧
      check "Tot Fwd Pkts" (FieldVal.text "not a number") (FieldVal.num 7) (1 / 10)
        = Verdict.passString :=
  ⟨rfl, check_non_numeric_always_passes "Tot Fwd Pkts" _ _ _ (Or.inl rfl)⟩

/-- Claim C10: the base tolerance test is applied first and the name-based
special cases can only upgrade a verdict to `PASS`; hence whenever the
difference is within the nominal tolerance the verdict is `PASS`, whatever
the field name. -/
theorem nominal_tolerance_always_passes (name : String) (t r tol : ℚ)
    (h : |t - r| ≤ tol) :
    check name (FieldVal.num t) (FieldVal.num r) tol = Verdict.pass := by
  rw [check_num_eq_ite, if_pos (Or.inl h)]

/-- Concrete instance of `nominal_tolerance_always_passes`: a `Duration`
field whose difference `1500` is not under the `1000` override threshold
still passes because it is within the nominal tolerance `2000`. -/
theorem nominal_tolerance_always_passes_witness :
    |(0 : ℚ) - 1500| ≤ 2000 ∧ ¬(|(0 : ℚ) - 1500| < 1000) ∧
      strHas "Flow Duration" "Duration" = true ∧
      check "Flow Duration" (FieldVal.num 0) (FieldVal.num 1500) 2000 = Verdict.pass :=
  ⟨by norm_num, by norm_num, by decide,
    nominal_tolerance_always_passes "Flow Duration" 0 1500 2000 (by norm_num)⟩

/-! ## Claims about the flow reconstructor -/

/-- Claim C5: the queries-per-second division is always guarded.  When
queries exist and the duration is zero the fixed epsilon divisor
`0.000001` is used, giving the finite rational
`dns_total_queries / 1e-6`; when the duration is positive the rate is
`dns_total_queries / duration`. -/
theorem qps_zero_division_guard (pkts : List Packet) (k : FlowKey) :
    (0 < (flowStats pkts k).tot_q ∧ (flowStats pkts k).duration_sec = 0 →
      (flowStats pkts k).qps = ((flowStats pkts k).tot_q : ℚ) / (1 / 1000000)) ∧
    (0 < (flowStats pkts k).duration_sec →
      (flowStats pkts k).qps
        = ((flowStats pkts k).tot_q : ℚ) / (flowStats pkts k).duration_sec) := by
  have hq : (flowStats pkts k).qps
      = qpsOf (flowStats pkts k).tot_q (flowStats pkts k).duration_sec := rfl
  constructor
  · intro h
    rw [hq, qpsOf, if_pos h]
  · intro h
    rw [hq, qpsOf, if_neg, if_pos h]
    rintro ⟨-, h0⟩
    exact absurd h0 (ne_of_gt h)

/-- A single-packet DNS query flow: one UDP query from `10.0.0.9:5000` to
`9.9.9.9:53` at time `2`. -/
def pkts5 : List Packet :=
  [{ frame_time_epoch := 2, frame_len := 80, ip_src := "10.0.0.9", ip_dst := "9.9.9.9",
     udp_srcport := some 5000, udp_dstport := some 53,
     tcp_srcport := none, tcp_dstport := none,
     dns_flags_response := some false }]

/-- The flow key of the single-packet flow `pkts5`. -/
def key5 : FlowKey :=
  { src := "10.0.0.9", dst := "9.9.9.9", sport := 5000, dport := 53, proto := Proto.udp }

/-- Concrete instance of `qps_zero_division_guard`: a one-packet flow has
zero duration yet a finite queries-per-second value `tot_q / 1e-6`. -/
theorem qps_zero_division_guard_witness :
    0 < (flowStats pkts5 key5).tot_q ∧ (flowStats pkts5 key5).duration_sec = 0 ∧
      (flowStats pkts5 key5).qps = ((flowStats pkts5 key5).tot_q : ℚ) / (1 / 1000000) := by
  have h1 : 0 < (flowStats pkts5 key5).tot_q := by decide
  have h2 : (flowStats pkts5 key5).duration_sec = 0 := by
    show maxTime (flow_pkts pkts5 key5) - minTime (flow_pkts pkts5 key5) = 0
    norm_num [flow_pkts, pkts5, key5, mask_fwd, mask_bwd, portEq, maxTime, minTime]
  exact ⟨h1, h2, (qps_zero_division_guard pkts5 key5).1 ⟨h1, h2⟩⟩

/-- Claim C6: the query/response ratio is the quotient when responses
exist and the raw query count when there are no responses. -/
theorem query_response_ratio_convention (pkts : List Packet) (k : FlowKey) :
    (0 < (flowStats pkts k).tot_r →
      (flowStats pkts k).ratio
        = ((flowStats pkts k).tot_q : ℚ) / ((flowStats pkts k).tot_r : ℚ)) ∧
    ((flowStats pkts k).tot_r = 0 →
      (flowStats pkts k).ratio = ((flowStats pkts k).tot_q : ℚ)) := by
  have hr : (flowStats pkts k).ratio
      = ratioOf (flowStats pkts k).tot_q (flowStats pkts k).tot_r := rfl
  constructor
  · intro h
    rw [hr, ratioOf, if_pos h]
  · intro h
    rw [hr, ratioOf, if_neg (by omega)]

/-- A flow of five UDP DNS queries and no responses, from
`10.0.0.3:6000` to `9.9.9.9:53`. -/
def pkts6 : List Packet :=
  List.replicate 5
    { frame_time_epoch := 1, frame_len := 70, ip_src := "10.0.0.3", ip_dst := "9.9.9.9",
      udp_srcport := some 6000, udp_dstport := some 53,
      tcp_srcport := none, tcp_dstport := none,
      dns_flags_response := some false }

/-- The flow key of the five-query flow `pkts6`. -/
def key6 : FlowKey :=
  { src := "10.0.0.3", dst := "9.9.9.9", sport := 6000, dport := 53, proto := Proto.udp }

/-- Concrete instance of `query_response_ratio_convention`: five queries
and zero responses give `query_response_ratio = 5`. -/
theorem query_response_ratio_convention_witness :
    (flowStats pkts6 key6).tot_q = 5 ∧ (flowStats pkts6 key6).tot_r = 0 ∧
      (flowStats pkts6 key6).ratio = 5 := by
  have h0 : (flowStats pkts6 key6).tot_r = 0 := by decide
  have h1 : (flowStats pkts6 key6).tot_q = 5 := by decide
  have h2 := (query_response_ratio_convention pkts6 key6).2 h0
  refine ⟨h1, h0, ?_⟩
  rw [h2, h1]
  norm_num

/-- Claim C2 (amended): direction membership never consults the flow key's
transport protocol; a packet matches on its source and destination
addresses together with a disjunctive port test — its UDP source port or
its TCP source port may equal the key's port, and likewise for the
destination port.  Since a packet carries ports of only one transport
layer, a UDP packet is effectively compared on its UDP ports and a TCP
packet on its TCP ports, but a packet of a different transport protocol
than the key's can still match the flow. -/
theorem mask_ignores_key_protocol (k : FlowKey) (p : Packet) (pr : Proto) :
    (mask_fwd { k with proto := pr } p = mask_fwd k p ∧
      mask_bwd { k with proto := pr } p = mask_bwd k p) ∧
    (mask_fwd k p = true ↔
      p.ip_src = k.src ∧ p.ip_dst = k.dst ∧
        (p.udp_srcport = some k.sport ∨ p.tcp_srcport = some k.sport) ∧
        (p.udp_dstport = some k.dport ∨ p.tcp_dstport = some k.dport)) ∧
    (mask_bwd k p = true ↔
      p.ip_src = k.dst ∧ p.ip_dst = k.src ∧
        (p.udp_srcport = some k.dport ∨ p.tcp_srcport = some k.dport) ∧
        (p.udp_dstport = some k.sport ∨ p.tcp_dstport = some k.sport)) := by
  refine ⟨⟨rfl, rfl⟩, ?_, ?_⟩ <;>
    simp [mask_fwd, mask_bwd, portEq, and_assoc]

/-- A UDP flow key from `10.0.0.7:53` to `10.0.0.8:40000`. -/
def keyC2 : FlowKey :=
  { src := "10.0.0.7", dst := "10.0.0.8", sport := 53, dport := 40000, proto := Proto.udp }

/-- A TCP packet (no UDP ports at all) with the same addresses and ports as
the UDP flow key `keyC2`. -/
def pktC2 : Packet :=
  { frame_time_epoch := 0, frame_len := 60, ip_src := "10.0.0.7", ip_dst := "10.0.0.8",
    udp_srcport := none, udp_dstport := none,
    tcp_srcport := some 53, tcp_dstport := some 40000,
    dns_flags_response := none }

/-- Refutation of claim C2 as stated: the flow key `keyC2` is a UDP key,
the packet `pktC2` carries no UDP ports (it is a TCP packet), yet it
matches the flow in the forward direction and is selected into
`flow_pkts`. -/
theorem tcp_packet_matches_udp_flow_key :
    keyC2.proto = Proto.udp ∧ pktC2.udp_srcport = none ∧ pktC2.udp_dstport = none ∧
      pktC2.tcp_srcport = some 53 ∧ mask_fwd keyC2 pktC2 = true ∧
      (flow_pkts [pktC2] keyC2).length = 1 := by
  decide

/-- Claim C1 (amended): for a flow key whose source and destination
addresses differ, no packet matches both directions, and the forward and
backward counts partition the matched packets exactly; moreover the
statistics are computed from the matched packets only, so packets matching
neither direction contribute to no statistic. -/
theorem direction_partition_of_distinct_addrs (pkts : List Packet) (k : FlowKey)
    (hk : k.src ≠ k.dst) :
    (∀ p : Packet, ¬(mask_fwd k p = true ∧ mask_bwd k p = true)) ∧
    (flowStats pkts k).tot_fwd + (flowStats pkts k).tot_bwd = (flow_pkts pkts k).length ∧
    flowStats (pkts.filter fun p => mask_fwd k p || mask_bwd k p) k = flowStats pkts k := by
  have hdisj : ∀ p : Packet, ¬(mask_fwd k p = true ∧ mask_bwd k p = true) := by
    rintro p ⟨hf, hb⟩
    simp only [mask_fwd, mask_bwd, Bool.and_eq_true, beq_iff_eq] at hf hb
    exact hk (hf.1.1.1 ▸ hb.1.1.1)
  refine ⟨hdisj, ?_, ?_⟩
  · exact length_filter_or_split (mask_fwd k) (mask_bwd k) hdisj pkts
  · have hfp : flow_pkts (pkts.filter fun p => mask_fwd k p || mask_bwd k p) k
        = flow_pkts pkts k := by
      simp [flow_pkts, List.filter_filter, Bool.and_self]
    show statsOfMatched k _ = statsOfMatched k _
    rw [hfp]

/-- A two-packet bidirectional flow: a UDP query from `10.0.0.2:5555` to
`9.9.9.9:53` and its response back. -/
def pkts1 : List Packet :=
  [{ frame_time_epoch := 0, frame_len := 75, ip_src := "10.0.0.2", ip_dst := "9.9.9.9",
     udp_srcport := some 5555, udp_dstport := some 53,
     tcp_srcport := none, tcp_dstport := none,
     dns_flags_response := some false },
   { frame_time_epoch := 1, frame_len := 300, ip_src := "9.9.9.9", ip_dst := "10.0.0.2",
     udp_srcport := some 53, udp_dstport := some 5555,
     tcp_srcport := none, tcp_dstport := none,
     dns_flags_response := some true }]

/-- The flow key of the bidirectional flow `pkts1`. -/
def key1 : FlowKey :=
  { src := "10.0.0.2", dst := "9.9.9.9", sport := 5555, dport := 53, proto := Proto.udp }

/-- Concrete instance of `direction_partition_of_distinct_addrs`: on the
bidirectional flow `pkts1` the two directional counts add up to the number
of matched packets. -/
theorem direction_partition_witness :
    key1.src ≠ key1.dst ∧
      (flowStats pkts1 key1).tot_fwd + (flowStats pkts1 key1).tot_bwd
        = (flow_pkts pkts1 key1).length :=
  ⟨by decide, (direction_partition_of_distinct_addrs pkts1 key1 (by decide)).2.1⟩

/-- A degenerate flow key whose source and destination coincide on both
address and port. -/
def keyDeg : FlowKey :=
  { src := "10.0.0.5", dst := "10.0.0.5", sport := 7, dport := 7, proto := Proto.udp }

/-- A packet from `10.0.0.5:7` to itself: it satisfies both direction masks
of `keyDeg` at once. -/
def pktDeg : Packet :=
  { frame_time_epoch := 0, frame_len := 90, ip_src := "10.0.0.5", ip_dst := "10.0.0.5",
    udp_srcport := some 7, udp_dstport := some 7,
    tcp_srcport := none, tcp_dstport := none,
    dns_flags_response := none }

/-- Refutation of claim C1 as stated: for the degenerate key `keyDeg` the
single matched packet `pktDeg` is counted in both directions, so
`forward_count + backward_count = 2` exceeds the one matched packet. -/
theorem degenerate_key_double_counts :
    (flow_pkts [pktDeg] keyDeg).length = 1 ∧
      mask_fwd keyDeg pktDeg = true ∧ mask_bwd keyDeg pktDeg = true ∧
      (flowStats [pktDeg] keyDeg).tot_fwd + (flowStats [pktDeg] keyDeg).tot_bwd = 2 := by
  decide

/-- Claim C8: an empty match set is the distinct `no ground truth` outcome
(`EmptyFlow`), never a numeric comparison, and the batch loop carries on
with the remaining flows: the report of the tail is unchanged. -/
theorem empty_flow_skipped_batch_continues (pkts : List Packet) (k : FlowKey)
    (ks : List FlowKey) (h : (flow_pkts pkts k).length = 0) :
    reconstruct pkts k = none ∧
      auditFlow pkts k = FlowReport.noGroundTruth ∧
      auditBatch pkts (k :: ks) = FlowReport.noGroundTruth :: auditBatch pkts ks := by
  have h1 : reconstruct pkts k = none := by
    simp only [reconstruct]
    rw [if_pos h]
  have h2 : auditFlow pkts k = FlowReport.noGroundTruth := by
    simp [auditFlow, h1]
  exact ⟨h1, h2, by simp [auditBatch, h2]⟩

/-- A one-packet capture used by the batch-continuation witness. -/
def pkts8 : List Packet :=
  [{ frame_time_epoch := 3, frame_len := 88, ip_src := "1.1.1.1", ip_dst := "2.2.2.2",
     udp_srcport := some 1111, udp_dstport := some 53,
     tcp_srcport := none, tcp_dstport := none,
     dns_flags_response := some false }]

/-- A flow key matching no packet of `pkts8`. -/
def key8 : FlowKey :=
  { src := "3.3.3.3", dst := "4.4.4.4", sport := 5, dport := 6, proto := Proto.udp }

/-- A flow key matching the single packet of `pkts8`. -/
def key8b : FlowKey :=
  { src := "1.1.1.1", dst := "2.2.2.2", sport := 1111, dport := 53, proto := Proto.udp }

/-- Concrete instance of `empty_flow_skipped_batch_continues`: the first
key matches nothing and yields the `no ground truth` section while the
second key of the batch is still processed. -/
theorem empty_flow_skipped_batch_continues_witness :
    (flow_pkts pkts8 key8).length = 0 ∧ (flow_pkts pkts8 key8b).length = 1 ∧
      auditBatch pkts8 [key8, key8b]
        = FlowReport.noGroundTruth :: auditBatch pkts8 [key8b] :=
  ⟨by decide, by decide,
    (empty_flow_skipped_batch_continues pkts8 key8 [key8b] (by decide)).2.2⟩

/-- Claim C7 (amended): reconstructing with the reversed flow key selects
exactly the same packets and yields the same statistics except for the two
per-direction packet counts, which are exchanged — duration, length
statistics, DNS totals and every derived ratio are invariant, while
`forward_count` and `backward_count` swap roles. -/
theorem revKey_swaps_direction_counts (pkts : List Packet) (k : FlowKey) :
    flow_pkts pkts (revKey k) = flow_pkts pkts k ∧
    flowStats pkts (revKey k) =
      { flowStats pkts k with
          tot_fwd := (flowStats pkts k).tot_bwd,
          tot_bwd := (flowStats pkts k).tot_fwd } := by
  have hfp : flow_pkts pkts (revKey k) = flow_pkts pkts k := by
    refine List.filter_congr ?_
    intro p _
    show (mask_fwd (revKey k) p || mask_bwd (revKey k) p)
        = (mask_fwd k p || mask_bwd k p)
    have h1 : mask_fwd (revKey k) p = mask_bwd k p := rfl
    have h2 : mask_bwd (revKey k) p = mask_fwd k p := rfl
    rw [h1, h2, Bool.or_comm]
  refine ⟨hfp, ?_⟩
  show statsOfMatched (revKey k) (flow_pkts pkts (revKey k)) = _
  rw [hfp]
  rfl

/-- A one-packet forward-only flow from `10.1.1.1:1234` to `10.1.1.2:53`. -/
def pkts7 : List Packet :=
  [{ frame_time_epoch := 4, frame_len := 66, ip_src := "10.1.1.1", ip_dst := "10.1.1.2",
     udp_srcport := some 1234, udp_dstport := some 53,
     tcp_srcport := none, tcp_dstport := none,
     dns_flags_response := some false }]

/-- The flow key of the forward-only flow `pkts7`. -/
def key7 : FlowKey :=
  { src := "10.1.1.1", dst := "10.1.1.2", sport := 1234, dport := 53, proto := Proto.udp }

/-- Refutation of claim C7 as stated: on the forward-only flow `pkts7` the
reversed key reports `forward_count = 0` instead of `1`, so the two
reconstructions are not identical `FlowStatistics`. -/
theorem reversed_key_stats_not_identical :
    (flowStats pkts7 key7).tot_fwd = 1 ∧
      (flowStats pkts7 (revKey key7)).tot_fwd = 0 ∧
      flowStats pkts7 (revKey key7) ≠ flowStats pkts7 key7 := by
  refine ⟨by decide, by decide, ?_⟩
  intro h
  have h1 := congrArg FlowStatistics.tot_fwd h
  have h2 : (flowStats pkts7 (revKey key7)).tot_fwd = 0 := by decide
  have h3 : (flowStats pkts7 key7).tot_fwd = 1 := by decide
  rw [h2, h3] at h1
  exact Nat.zero_ne_one h1

/-- The client address of the end-to-end scenario flow. -/
def addrA : String := "192.168.1.10"

/-- The server address of the end-to-end scenario flow. -/
def addrB : String := "8.8.8.8"

/-- The end-to-end scenario packets: three forward UDP packets of lengths
`64`, `1200`, `64` at timestamps `0`, `0.01`, `5` — a DNS query, its
response, and a follow-up query, all travelling from `addrA:5353` to
`addrB:53`. -/
def pkts9 : List Packet :=
  [{ frame_time_epoch := 0, frame_len := 64, ip_src := addrA, ip_dst := addrB,
     udp_srcport := some 5353, udp_dstport := some 53,
     tcp_srcport := none, tcp_dstport := none,
     dns_flags_response := some false },
   { frame_time_epoch := 1 / 100, frame_len := 1200, ip_src := addrA, ip_dst := addrB,
     udp_srcport := some 5353, udp_dstport := some 53,
     tcp_srcport := none, tcp_dstport := none,
     dns_flags_response := some true },
   { frame_time_epoch := 5, frame_len := 64, ip_src := addrA, ip_dst := addrB,
     udp_srcport := some 5353, udp_dstport := some 53,
     tcp_srcport := none, tcp_dstport := none,
     dns_flags_response := some false }]

/-- The flow key of the end-to-end scenario. -/
def key9 : FlowKey :=
  { src := addrA, dst := addrB, sport := 5353, dport := 53, proto := Proto.udp }

/-- Claim C9: on the three-packet scenario flow the reconstruction
succeeds and reports `duration_seconds = 5`, `forward_count = 3`,
`backward_count = 0`, `dns_total_queries = 2`, `dns_total_responses = 1`,
`avg_query_bytes = 64`, `avg_response_bytes = 1200`,
`dns_amplification_factor = 18.75 = 75/4` and
`query_response_ratio = 2`. -/
theorem end_to_end_scenario :
    reconstruct pkts9 key9 = some (flowStats pkts9 key9) ∧
    (flowStats pkts9 key9).duration_sec = 5 ∧
    (flowStats pkts9 key9).tot_fwd = 3 ∧
    (flowStats pkts9 key9).tot_bwd = 0 ∧
    (flowStats pkts9 key9).tot_q = 2 ∧
    (flowStats pkts9 key9).tot_r = 1 ∧
    (flowStats pkts9 key9).avg_q = 64 ∧
    (flowStats pkts9 key9).avg_r = 1200 ∧
    (flowStats pkts9 key9).amp_factor = 75 / 4 ∧
    (flowStats pkts9 key9).ratio = 2 := by
  have hrec : reconstruct pkts9 key9 = some (flowStats pkts9 key9) := by
    simp only [reconstruct]
    rw [if_neg (by decide)]
  have hfp : flow_pkts pkts9 key9 = pkts9 := by
    simp [flow_pkts, pkts9, key9, addrA, addrB, mask_fwd, mask_bwd, portEq]
  have hstats : flowStats pkts9 key9 = statsOfMatched key9 pkts9 := by
    rw [flowStats, hfp]
  refine ⟨hrec, ?_, by decide, by decide, by decide, by decide, ?_, ?_, ?_, ?_⟩ <;>
    rw [hstats] <;>
    simp [statsOfMatched, pkts9, key9, addrA, addrB, mask_fwd, mask_bwd, portEq,
      maxTime, minTime, maxLen, qpsOf, ratioOf] <;>
    norm_num [max_def, min_def]

end CICAudit
